import Mathlib

/-!
Verification of `redux-create-fetcher` (src/index.js).

The whole library is one factory `Fetcher(actionPrefix, paramsFunc)` that
returns `key => dispatch => { ... }`.  We embed the body of that inner
thunk as a pure function `runFetcher` producing the ordered trace of
observable events of one invocation (console logs, `dispatch` calls,
evaluation of `fetchURLFunc`/`fetchOptionsFunc`, the `fetch` call, the
body-decode attempt `response[responseType]()`, and the call of the
user-supplied `deferredSuccess`) together with the outcome of the thunk:
it may return `undefined` (the `return;` on the validation path), return
a promise that resolves or rejects, or throw synchronously (when
`paramsFunc` is not callable).
-/

namespace RCF

/-- JavaScript values, as far as this library inspects them. -/
inductive JSVal where
  | str : String → JSVal
  | num : Int → JSVal
  | boolean : Bool → JSVal
  | jsNull : JSVal
  | undefined : JSVal
  | arr : List JSVal → JSVal
  | obj : List (String × JSVal) → JSVal

/-- `typeof v` for the values of `JSVal`. -/
def jsTypeof : JSVal → String
  | .str _ => "string"
  | .num _ => "number"
  | .boolean _ => "boolean"
  | .jsNull => "object"
  | .undefined => "undefined"
  | .arr _ => "object"
  | .obj _ => "object"

mutual
/-- JavaScript string coercion (used by the `+` in the `console.error`
message when `actionPrefix` is not a string). -/
def jsToString : JSVal → String
  | .str s => s
  | .num n => toString n
  | .boolean b => if b then "true" else "false"
  | .jsNull => "null"
  | .undefined => "undefined"
  | .arr vs => jsArrToString vs
  | .obj _ => "[object Object]"

/-- `Array.prototype.toString`: elements joined with commas. -/
def jsArrToString : List JSVal → String
  | [] => ""
  | [v] => jsToString v
  | v :: vs => jsToString v ++ "," ++ jsArrToString vs
end

/-- The plain action objects built by the three action creators of
src/index.js lines 3-18: `{type, key}`, `{type, key, result}`,
`{type, key, error}`. -/
inductive Action where
  | request (type : String) (key : JSVal)
  | success (type : String) (key : JSVal) (result : JSVal)
  | failure (type : String) (key : JSVal) (error : JSVal)

/-- The `key` field present in all three action shapes. -/
def Action.key : Action → JSVal
  | .request _ k => k
  | .success _ k _ => k
  | .failure _ k _ => k

/-- `requestAction` (src/index.js line 3): `{type: actionPrefix + '_REQUEST', key}`.
The creators close over `actionPrefix`; we pass it explicitly.  `+` on a
non-string left operand coerces, hence `jsToString`. -/
def requestAction (actionPrefix : JSVal) (key : JSVal) : Action :=
  .request (jsToString actionPrefix ++ "_REQUEST") key

/-- `successAction` (src/index.js line 8). -/
def successAction (actionPrefix : JSVal) (key result : JSVal) : Action :=
  .success (jsToString actionPrefix ++ "_SUCCESS") key result

/-- `failureAction` (src/index.js line 14). -/
def failureAction (actionPrefix : JSVal) (key error : JSVal) : Action :=
  .failure (jsToString actionPrefix ++ "_FAILURE") key error

/-- `dispatchSuccessAction` (src/index.js line 24): the capability handed to
`paramsFunc`; given a `result` it dispatches `successAction({key, result})`.
We model it as the function from the `result` to the single action it
dispatches. -/
def dispatchSuccessAction (actionPrefix key : JSVal) (result : JSVal) : Action :=
  successAction actionPrefix key result

/-- A JS property that is expected to hold a function: it can be absent
(`undefined`), present but not callable, or an actual function. -/
inductive FuncProp where
  | missing : FuncProp
  | notAFunction (v : JSVal) : FuncProp
  | fn (f : JSVal → JSVal) : FuncProp

/-- `typeof` of such a property. -/
def FuncProp.typeof : FuncProp → String
  | .missing => "undefined"
  | .notAFunction v => jsTypeof v
  | .fn _ => "function"

/-- The dictionary returned by `paramsFunc`, before the destructuring
defaults of src/index.js lines 28-34 are applied.  `none` is an absent
(`undefined`) property, for which the destructuring default kicks in.
`deferredSuccess` is an external collaborator: the component only calls
it; whatever it later dispatches (through the capability) is its own
doing, so its behaviour is carried as opaque data. -/
structure FetchParams where
  fetchURLFunc : FuncProp
  fetchOptionsFunc : Option (JSVal → JSVal) := none
  responseType : Option String := none
  parseResponse : Option (JSVal → JSVal) := none
  deferredSuccess : Option (JSVal → List Action) := none

/-- The destructuring default for `fetchOptionsFunc`
(src/index.js line 30): `key => ({ method: 'GET' })` — GET, no body. -/
def defaultFetchOptionsFunc : JSVal → JSVal :=
  fun _ => .obj [("method", .str "GET")]

/-- The `paramsFunc` argument as passed to `Fetcher`: a JS value that is
hopefully a function from the dispatch-success capability to a params
dictionary.  When it is not a function, `paramsFunc(dispatchSuccessAction)`
at src/index.js line 34 throws a `TypeError`. -/
inductive ParamsFunc where
  | notAFunction (v : JSVal) : ParamsFunc
  | fn (f : (JSVal → Action) → FetchParams) : ParamsFunc

/-- A `fetch` `Response`: the five body-reading methods, each producing a
promise that fulfills with the decoded body or rejects with a decode
error. -/
structure JSResponse where
  arrayBuffer : Except JSVal JSVal
  blob : Except JSVal JSVal
  formData : Except JSVal JSVal
  json : Except JSVal JSVal
  text : Except JSVal JSVal

/-- The property lookup `response[responseType]` (src/index.js line 52):
one of the five body methods when `responseType` names one, otherwise
`undefined` (so that calling it throws). -/
def JSResponse.bodyMethod (r : JSResponse) (rt : String) :
    Option (Except JSVal JSVal) :=
  if rt = "arrayBuffer" then some r.arrayBuffer
  else if rt = "blob" then some r.blob
  else if rt = "formData" then some r.formData
  else if rt = "json" then some r.json
  else if rt = "text" then some r.text
  else none

/-- Observable events of one invocation, in program order. -/
inductive Event where
  | logged (msg : String)
  | dispatched (a : Action)
  | evalURLFunc (key : JSVal)
  | evalOptionsFunc (key : JSVal)
  | fetchCalled (url : JSVal) (opts : JSVal)
  | decodeCalled (rt : String)
  | deferredCalled (v : JSVal)

/-- What the inner thunk `dispatch => {...}` gives back to its caller. -/
inductive FetchOutcome where
  | undefinedReturn : FetchOutcome
  | resolved : FetchOutcome
  | rejected (error : JSVal) : FetchOutcome
  | thrown (error : JSVal) : FetchOutcome

/-- The `console.error` text of src/index.js lines 38-45. -/
def validationMessage (actionPrefix : JSVal) (urlProp : FuncProp) : String :=
  "Fetcher requires string `actionPrefix` " ++
    " and function `fetchURLFunc` to be " ++
    "specified in paramsFunc; got " ++
    jsToString actionPrefix ++ " (type " ++
    jsTypeof actionPrefix ++ ") and (type " ++
    urlProp.typeof ++ "), respectively"

/-- The continuation on the decoded-body promise, src/index.js lines 52-61:
`response[responseType]().then(value => ..., error => dispatch(failure))`.
When `responseType` names no body method the call throws, which rejects the
promise returned by the outer `.then` — no failure action is dispatched. -/
def decodeStep (actionPrefix key : JSVal) (responseType : String)
    (parseResponse : JSVal → JSVal) (deferred : Option (JSVal → List Action))
    (response : JSResponse) : List Event × FetchOutcome :=
  match response.bodyMethod responseType with
  | none =>
      ([.decodeCalled responseType],
        .rejected (.str "TypeError: response[responseType] is not a function"))
  | some (.error error) =>
      ([.decodeCalled responseType,
        .dispatched (failureAction actionPrefix key error)], .resolved)
  | some (.ok value) =>
      match deferred with
      | some _ =>
          ([.decodeCalled responseType, .deferredCalled value], .resolved)
      | none =>
          ([.decodeCalled responseType,
            .dispatched (dispatchSuccessAction actionPrefix key
              (parseResponse value))], .resolved)

/-- The two-handler `.then` on the `fetch` promise, src/index.js lines 51-63:
on fulfillment decode the body, on rejection dispatch the failure action
(and never attempt decoding). -/
def fetchContinuation (actionPrefix key : JSVal) (responseType : String)
    (parseResponse : JSVal → JSVal) (deferred : Option (JSVal → List Action))
    (result : Except JSVal JSResponse) : List Event × FetchOutcome :=
  match result with
  | .error error =>
      ([.dispatched (failureAction actionPrefix key error)], .resolved)
  | .ok response =>
      decodeStep actionPrefix key responseType parseResponse deferred response

/-- `paramsFunc(dispatchSuccessAction)` (src/index.js line 34): the params
dictionary obtained for this invocation. -/
def paramsOf (pf : (JSVal → Action) → FetchParams)
    (actionPrefix key : JSVal) : FetchParams :=
  pf (dispatchSuccessAction actionPrefix key)

/-- The value of `fetchOptionsFunc(key)` after the destructuring default of
src/index.js line 30. -/
def resolvedOptions (p : FetchParams) (key : JSVal) : JSVal :=
  (p.fetchOptionsFunc.getD defaultFetchOptionsFunc) key

/-- `responseType` after the destructuring default of src/index.js line 31. -/
def resolvedResponseType (p : FetchParams) : String :=
  p.responseType.getD "json"

/-- `parseResponse` after the destructuring default of src/index.js
line 32 (`value => value`). -/
def resolvedParse (p : FetchParams) : JSVal → JSVal :=
  p.parseResponse.getD (fun value => value)

/-- The body of `key => dispatch => {...}` (src/index.js lines 21-64), for
one invocation.  `net` is the external transport: `fetch(url, opts)` either
fulfills with a `Response` or rejects with a transport error.

Order of operations mirrors the source: build the capability, call
`paramsFunc` (throws if it is not a function), destructure with defaults,
validate `typeof actionPrefix` and `typeof fetchURLFunc` (logging and
returning `undefined` on failure — the source tests the disjunction in one
`if`; matching on `fetchURLFunc` first decides the same predicate), then
dispatch the request action, evaluate `fetchURLFunc(key)` and
`fetchOptionsFunc(key)`, call `fetch`, and run the promise chain. -/
def runFetcher (actionPrefix : JSVal) (paramsFunc : ParamsFunc) (key : JSVal)
    (net : JSVal → JSVal → Except JSVal JSResponse) :
    List Event × FetchOutcome :=
  match paramsFunc with
  | .notAFunction _ =>
      ([], .thrown (.str "TypeError: paramsFunc is not a function"))
  | .fn pf =>
      let p := paramsOf pf actionPrefix key
      match p.fetchURLFunc with
      | .fn fetchURLFunc =>
          if jsTypeof actionPrefix ≠ "string" then
            ([.logged (validationMessage actionPrefix (.fn fetchURLFunc))],
              .undefinedReturn)
          else
            let url := fetchURLFunc key
            let opts := resolvedOptions p key
            let tail := fetchContinuation actionPrefix key
              (resolvedResponseType p) (resolvedParse p)
              p.deferredSuccess (net url opts)
            (.dispatched (requestAction actionPrefix key) ::
              .evalURLFunc key :: .evalOptionsFunc key ::
              .fetchCalled url opts :: tail.1, tail.2)
      | urlProp =>
          ([.logged (validationMessage actionPrefix urlProp)],
            .undefinedReturn)

/-- The actions passed to `dispatch`, in order, extracted from a trace. -/
def dispatchedActions : List Event → List Action :=
  List.filterMap fun e =>
    match e with
    | .dispatched a => some a
    | _ => none

/-- Is this event a dispatch of a `_REQUEST`-shaped action? -/
def Event.isRequestDispatch : Event → Bool
  | .dispatched (.request _ _) => true
  | _ => false

/-- Is this event a dispatch of a `_SUCCESS`-shaped action? -/
def Event.isSuccessDispatch : Event → Bool
  | .dispatched (.success _ _ _) => true
  | _ => false

/-- Is this event a dispatch of a `_FAILURE`-shaped action? -/
def Event.isFailureDispatch : Event → Bool
  | .dispatched (.failure _ _ _) => true
  | _ => false

/-- Is this event any dispatch at all? -/
def Event.isDispatch : Event → Bool
  | .dispatched _ => true
  | _ => false

/-- Is this event the issuing of the network call? -/
def Event.isFetchCall : Event → Bool
  | .fetchCalled _ _ => true
  | _ => false

/-- Is this event a body-decode attempt `response[responseType]()`? -/
def Event.isDecodeCall : Event → Bool
  | .decodeCalled _ => true
  | _ => false

/-- Is this event a console log? -/
def Event.isLog : Event → Bool
  | .logged _ => true
  | _ => false

/-- Unfolding of `runFetcher` on an invocation that passes validation:
request dispatch, evaluation of the two config functions, the `fetch`
call, then the promise-chain continuation. -/
theorem runFetcher_fn_eq (actionPrefix : JSVal)
    (pf : (JSVal → Action) → FetchParams) (key : JSVal)
    (net : JSVal → JSVal → Except JSVal JSResponse) (f : JSVal → JSVal)
    (hstr : jsTypeof actionPrefix = "string")
    (hURL : (paramsOf pf actionPrefix key).fetchURLFunc = .fn f) :
    runFetcher actionPrefix (.fn pf) key net =
      (Event.dispatched (requestAction actionPrefix key) ::
        Event.evalURLFunc key :: Event.evalOptionsFunc key ::
        Event.fetchCalled (f key)
          (resolvedOptions (paramsOf pf actionPrefix key) key) ::
        (fetchContinuation actionPrefix key
          (resolvedResponseType (paramsOf pf actionPrefix key))
          (resolvedParse (paramsOf pf actionPrefix key))
          (paramsOf pf actionPrefix key).deferredSuccess
          (net (f key)
            (resolvedOptions (paramsOf pf actionPrefix key) key))).1,
       (fetchContinuation actionPrefix key
          (resolvedResponseType (paramsOf pf actionPrefix key))
          (resolvedParse (paramsOf pf actionPrefix key))
          (paramsOf pf actionPrefix key).deferredSuccess
          (net (f key)
            (resolvedOptions (paramsOf pf actionPrefix key) key))).2) := by
  simp only [runFetcher]
  rw [hURL]
  simp [hstr]

/-- Unfolding of `runFetcher` on an invocation that fails validation:
one console log, return value `undefined`. -/
theorem runFetcher_invalid_eq (actionPrefix : JSVal)
    (pf : (JSVal → Action) → FetchParams) (key : JSVal)
    (net : JSVal → JSVal → Except JSVal JSResponse)
    (h : jsTypeof actionPrefix ≠ "string" ∨
      (paramsOf pf actionPrefix key).fetchURLFunc.typeof ≠ "function") :
    runFetcher actionPrefix (.fn pf) key net =
      ([.logged (validationMessage actionPrefix
          (paramsOf pf actionPrefix key).fetchURLFunc)],
        .undefinedReturn) := by
  simp only [runFetcher]
  cases hp : (paramsOf pf actionPrefix key).fetchURLFunc with
  | fn f =>
      have hs : jsTypeof actionPrefix ≠ "string" := by
        rcases h with h | h
        · exact h
        · rw [hp] at h
          exact absurd rfl h
      simp [hs]
  | missing => simp
  | notAFunction v => simp

/-- The promise-chain continuation never dispatches a request action. -/
theorem fetchContinuation_request_free (ap key : JSVal) (rt : String)
    (pr : JSVal → JSVal) (d : Option (JSVal → List Action))
    (res : Except JSVal JSResponse) :
    (fetchContinuation ap key rt pr d res).1.countP
      Event.isRequestDispatch = 0 := by
  unfold fetchContinuation decodeStep
  rcases res with e | r
  · simp [Event.isRequestDispatch, failureAction]
  · cases h : r.bodyMethod rt with
    | none => simp [h, Event.isRequestDispatch]
    | some x =>
        cases x with
        | error e => simp [h, Event.isRequestDispatch, failureAction]
        | ok v =>
            cases d with
            | none =>
                simp [h, Event.isRequestDispatch, dispatchSuccessAction,
                  successAction]
            | some dd => simp [h, Event.isRequestDispatch]

/-- C1: a validated invocation dispatches exactly one request action,
of shape `{type: prefix ++ "_REQUEST", key}` with the input key, and
this dispatch precedes the evaluation of `fetchURLFunc` and
`fetchOptionsFunc` and the issuing of the `fetch` call. -/
theorem request_dispatched_once_and_first
    (s : String) (pf : (JSVal → Action) → FetchParams) (key : JSVal)
    (net : JSVal → JSVal → Except JSVal JSResponse) (f : JSVal → JSVal)
    (hURL : (paramsOf pf (.str s) key).fetchURLFunc = .fn f) :
    ∃ opts rest,
      (runFetcher (.str s) (.fn pf) key net).1 =
        Event.dispatched (Action.request (s ++ "_REQUEST") key) ::
          Event.evalURLFunc key :: Event.evalOptionsFunc key ::
          Event.fetchCalled (f key) opts :: rest ∧
      (runFetcher (.str s) (.fn pf) key net).1.countP
        Event.isRequestDispatch = 1 := by
  rw [runFetcher_fn_eq (.str s) pf key net f rfl hURL]
  refine ⟨resolvedOptions (paramsOf pf (.str s) key) key,
    (fetchContinuation (.str s) key
      (resolvedResponseType (paramsOf pf (.str s) key))
      (resolvedParse (paramsOf pf (.str s) key))
      (paramsOf pf (.str s) key).deferredSuccess
      (net (f key) (resolvedOptions (paramsOf pf (.str s) key) key))).1,
    ?_, ?_⟩
  · simp [requestAction, jsToString]
  · simp [List.countP_cons, Event.isRequestDispatch, requestAction,
      jsToString, fetchContinuation_request_free]

/-- Witness for C1: concrete invocation, identity URL function, failing
transport. -/
theorem request_dispatched_once_and_first_w :
    ∃ opts rest,
      (runFetcher (.str "FETCH_FRIENDS")
          (.fn fun _ => { fetchURLFunc := .fn fun k => k })
          (.str "alice") (fun _ _ => .error (.str "ECONNRESET"))).1 =
        Event.dispatched
            (Action.request ("FETCH_FRIENDS" ++ "_REQUEST") (.str "alice")) ::
          Event.evalURLFunc (.str "alice") ::
          Event.evalOptionsFunc (.str "alice") ::
          Event.fetchCalled (.str "alice") opts :: rest ∧
      (runFetcher (.str "FETCH_FRIENDS")
          (.fn fun _ => { fetchURLFunc := .fn fun k => k })
          (.str "alice") (fun _ _ => .error (.str "ECONNRESET"))).1.countP
        Event.isRequestDispatch = 1 :=
  request_dispatched_once_and_first "FETCH_FRIENDS"
    (fun _ => { fetchURLFunc := .fn fun k => k }) (.str "alice")
    (fun _ _ => .error (.str "ECONNRESET")) (fun k => k) rfl

/-- A response fixture: given outcomes for the `json` and `text` body
methods; the binary body methods reject. -/
def respFix (j t : Except JSVal JSVal) : JSResponse :=
  { arrayBuffer := .error (.str "decode"), blob := .error (.str "decode"),
    formData := .error (.str "decode"), json := j, text := t }

/-- The README example's URL function: `k => "/api/" + k + "/friends/"`. -/
def friendsURL : JSVal → JSVal :=
  fun k => .str ("/api/" ++ jsToString k ++ "/friends/")

/-- Params fixture for the FETCH_FRIENDS scenario: only `fetchURLFunc`
supplied, all other options omitted. -/
def friendsParams : FetchParams :=
  { fetchURLFunc := .fn friendsURL }

/-- Response fixture whose JSON body decodes to `["bob","carol"]`. -/
def friendsResp : JSResponse :=
  respFix (.ok (.arr [.str "bob", .str "carol"])) (.error (.str "decode"))

/-- Params fixture: identity URL function, `deferredSuccess` forwarding the
decoded value to the capability. -/
def deferredParams (cap : JSVal → Action) : FetchParams :=
  { fetchURLFunc := .fn (fun k => k),
    deferredSuccess := some (fun v => [cap v]) }

/-- C2: without `deferredSuccess`, an invocation whose fetch fulfills and
whose body decodes to `v` dispatches exactly the request action followed by
one success action `{type: prefix ++ "_SUCCESS", key, result}` with
`result = parseResponse v`, in that order. -/
theorem success_dispatched_once
    (s : String) (pf : (JSVal → Action) → FetchParams) (key : JSVal)
    (net : JSVal → JSVal → Except JSVal JSResponse) (f : JSVal → JSVal)
    (resp : JSResponse) (v : JSVal)
    (hURL : (paramsOf pf (.str s) key).fetchURLFunc = .fn f)
    (hDef : (paramsOf pf (.str s) key).deferredSuccess = none)
    (hNet : net (f key) (resolvedOptions (paramsOf pf (.str s) key) key) =
      .ok resp)
    (hDec : resp.bodyMethod (resolvedResponseType (paramsOf pf (.str s) key)) =
      some (.ok v)) :
    dispatchedActions (runFetcher (.str s) (.fn pf) key net).1 =
      [Action.request (s ++ "_REQUEST") key,
        Action.success (s ++ "_SUCCESS") key
          (resolvedParse (paramsOf pf (.str s) key) v)] := by
  rw [runFetcher_fn_eq (.str s) pf key net f rfl hURL]
  simp [dispatchedActions, fetchContinuation, decodeStep, hNet, hDec, hDef,
    requestAction, successAction, dispatchSuccessAction, jsToString]

/-- Witness for C2: the FETCH_FRIENDS/alice scenario — decoded JSON body
`["bob","carol"]`, default `parseResponse`. -/
theorem success_dispatched_once_w :
    dispatchedActions (runFetcher (.str "FETCH_FRIENDS")
        (.fn (fun _ => friendsParams)) (.str "alice")
        (fun _ _ => .ok friendsResp)).1 =
      [Action.request ("FETCH_FRIENDS" ++ "_REQUEST") (.str "alice"),
        Action.success ("FETCH_FRIENDS" ++ "_SUCCESS") (.str "alice")
          (.arr [.str "bob", .str "carol"])] :=
  success_dispatched_once "FETCH_FRIENDS" (fun _ => friendsParams)
    (.str "alice") (fun _ _ => .ok friendsResp) friendsURL friendsResp
    (.arr [.str "bob", .str "carol"]) rfl rfl rfl rfl

/-- C3: on a transport error the invocation dispatches exactly the request
action followed by one failure action carrying the transport error
unchanged, and never attempts body decoding; on a decode error it
dispatches exactly the request action followed by one failure action
carrying the decode error unchanged.  In both cases no success action is
dispatched. -/
theorem failure_dispatched_once :
    (∀ (s : String) (pf : (JSVal → Action) → FetchParams) (key : JSVal)
        (net : JSVal → JSVal → Except JSVal JSResponse) (f : JSVal → JSVal)
        (e : JSVal),
      (paramsOf pf (.str s) key).fetchURLFunc = .fn f →
      net (f key) (resolvedOptions (paramsOf pf (.str s) key) key) =
        .error e →
      dispatchedActions (runFetcher (.str s) (.fn pf) key net).1 =
        [Action.request (s ++ "_REQUEST") key,
          Action.failure (s ++ "_FAILURE") key e] ∧
      (runFetcher (.str s) (.fn pf) key net).1.countP Event.isDecodeCall = 0) ∧
    (∀ (s : String) (pf : (JSVal → Action) → FetchParams) (key : JSVal)
        (net : JSVal → JSVal → Except JSVal JSResponse) (f : JSVal → JSVal)
        (resp : JSResponse) (e : JSVal),
      (paramsOf pf (.str s) key).fetchURLFunc = .fn f →
      net (f key) (resolvedOptions (paramsOf pf (.str s) key) key) =
        .ok resp →
      resp.bodyMethod (resolvedResponseType (paramsOf pf (.str s) key)) =
        some (.error e) →
      dispatchedActions (runFetcher (.str s) (.fn pf) key net).1 =
        [Action.request (s ++ "_REQUEST") key,
          Action.failure (s ++ "_FAILURE") key e]) := by
  constructor
  · intro s pf key net f e hURL hNet
    rw [runFetcher_fn_eq (.str s) pf key net f rfl hURL]
    constructor
    · simp [dispatchedActions, fetchContinuation, hNet, requestAction,
        failureAction, jsToString]
    · simp [List.countP_cons, fetchContinuation, hNet, Event.isDecodeCall]
  · intro s pf key net f resp e hURL hNet hDec
    rw [runFetcher_fn_eq (.str s) pf key net f rfl hURL]
    simp [dispatchedActions, fetchContinuation, decodeStep, hNet, hDec,
      requestAction, failureAction, jsToString]

/-- Witness for C3: transport error `"ECONNRESET"` (first part) and a JSON
decode error `"SyntaxError"` (second part), concrete invocations. -/
theorem failure_dispatched_once_w :
    (dispatchedActions (runFetcher (.str "FETCH_FRIENDS")
        (.fn fun _ => { fetchURLFunc := .fn fun k => k }) (.str "alice")
        (fun _ _ => .error (.str "ECONNRESET"))).1 =
      [Action.request ("FETCH_FRIENDS" ++ "_REQUEST") (.str "alice"),
        Action.failure ("FETCH_FRIENDS" ++ "_FAILURE") (.str "alice")
          (.str "ECONNRESET")] ∧
      (runFetcher (.str "FETCH_FRIENDS")
        (.fn fun _ => { fetchURLFunc := .fn fun k => k }) (.str "alice")
        (fun _ _ => .error (.str "ECONNRESET"))).1.countP
          Event.isDecodeCall = 0) ∧
    dispatchedActions (runFetcher (.str "FETCH_FRIENDS")
        (.fn fun _ => { fetchURLFunc := .fn fun k => k }) (.str "alice")
        (fun _ _ => .ok (respFix (.error (.str "SyntaxError"))
          (.ok (.str "t"))))).1 =
      [Action.request ("FETCH_FRIENDS" ++ "_REQUEST") (.str "alice"),
        Action.failure ("FETCH_FRIENDS" ++ "_FAILURE") (.str "alice")
          (.str "SyntaxError")] :=
  ⟨failure_dispatched_once.1 "FETCH_FRIENDS"
      (fun _ => { fetchURLFunc := .fn fun k => k }) (.str "alice")
      (fun _ _ => .error (.str "ECONNRESET")) (fun k => k)
      (.str "ECONNRESET") rfl rfl,
    failure_dispatched_once.2 "FETCH_FRIENDS"
      (fun _ => { fetchURLFunc := .fn fun k => k }) (.str "alice")
      (fun _ _ => .ok (respFix (.error (.str "SyntaxError")) (.ok (.str "t"))))
      (fun k => k)
      (respFix (.error (.str "SyntaxError")) (.ok (.str "t")))
      (.str "SyntaxError") rfl rfl rfl⟩

/-- C4: with `deferredSuccess` present, a decoded body `v` leads to a call
of `deferredSuccess(v)`, the operation itself dispatches only the request
action (no success action), and the dispatch-success capability handed to
`paramsFunc`, when invoked with `r`, dispatches the success action
`{type: prefix ++ "_SUCCESS", key, result: r}`. -/
theorem deferred_success_delegates
    (s : String) (pf : (JSVal → Action) → FetchParams) (key : JSVal)
    (net : JSVal → JSVal → Except JSVal JSResponse) (f : JSVal → JSVal)
    (resp : JSResponse) (v : JSVal) (d : JSVal → List Action)
    (hURL : (paramsOf pf (.str s) key).fetchURLFunc = .fn f)
    (hDef : (paramsOf pf (.str s) key).deferredSuccess = some d)
    (hNet : net (f key) (resolvedOptions (paramsOf pf (.str s) key) key) =
      .ok resp)
    (hDec : resp.bodyMethod (resolvedResponseType (paramsOf pf (.str s) key)) =
      some (.ok v)) :
    dispatchedActions (runFetcher (.str s) (.fn pf) key net).1 =
      [Action.request (s ++ "_REQUEST") key] ∧
    Event.deferredCalled v ∈ (runFetcher (.str s) (.fn pf) key net).1 ∧
    (runFetcher (.str s) (.fn pf) key net).1.countP
      Event.isSuccessDispatch = 0 ∧
    ∀ r, dispatchSuccessAction (.str s) key r =
      Action.success (s ++ "_SUCCESS") key r := by
  rw [runFetcher_fn_eq (.str s) pf key net f rfl hURL]
  refine ⟨?_, ?_, ?_, ?_⟩
  · simp [dispatchedActions, fetchContinuation, decodeStep, hNet, hDec, hDef,
      requestAction, jsToString]
  · simp [fetchContinuation, decodeStep, hNet, hDec, hDef]
  · simp [List.countP_cons, fetchContinuation, decodeStep, hNet, hDec, hDef,
      Event.isSuccessDispatch, requestAction, jsToString]
  · intro r
    simp [dispatchSuccessAction, successAction, jsToString]

/-- Witness for C4: concrete deferred invocation over a blob-like decoded
body. -/
theorem deferred_success_delegates_w :
    dispatchedActions (runFetcher (.str "FETCH_FRIENDS")
        (.fn deferredParams) (.str "alice")
        (fun _ _ => .ok (respFix (.ok (.str "mugshot"))
          (.error (.str "decode"))))).1 =
      [Action.request ("FETCH_FRIENDS" ++ "_REQUEST") (.str "alice")] ∧
    Event.deferredCalled (.str "mugshot") ∈
      (runFetcher (.str "FETCH_FRIENDS")
        (.fn deferredParams) (.str "alice")
        (fun _ _ => .ok (respFix (.ok (.str "mugshot"))
          (.error (.str "decode"))))).1 ∧
    (runFetcher (.str "FETCH_FRIENDS")
        (.fn deferredParams) (.str "alice")
        (fun _ _ => .ok (respFix (.ok (.str "mugshot"))
          (.error (.str "decode"))))).1.countP Event.isSuccessDispatch = 0 ∧
    ∀ r, dispatchSuccessAction (.str "FETCH_FRIENDS") (.str "alice") r =
      Action.success ("FETCH_FRIENDS" ++ "_SUCCESS") (.str "alice") r :=
  deferred_success_delegates "FETCH_FRIENDS" deferredParams
    (.str "alice")
    (fun _ _ => .ok (respFix (.ok (.str "mugshot")) (.error (.str "decode"))))
    (fun k => k)
    (respFix (.ok (.str "mugshot")) (.error (.str "decode")))
    (.str "mugshot")
    (fun v => [dispatchSuccessAction (.str "FETCH_FRIENDS") (.str "alice") v])
    rfl rfl rfl rfl

/-- C5 counterexample: with `paramsFunc` not a function (here the number
`5`), the invocation throws a `TypeError` at the call
`paramsFunc(dispatchSuccessAction)` (src/index.js line 34) before the
soft-validation check runs: nothing is logged and nothing is returned —
contradicting "does not throw, writes a diagnostic and returns". -/
theorem nonfunction_paramsFunc_throws :
    runFetcher (.str "FETCH_FRIENDS") (.notAFunction (.num 5)) (.str "alice")
        (fun _ _ => .error (.str "e")) =
      ([], .thrown (.str "TypeError: paramsFunc is not a function")) ∧
    (runFetcher (.str "FETCH_FRIENDS") (.notAFunction (.num 5)) (.str "alice")
        (fun _ _ => .error (.str "e"))).1.countP Event.isLog = 0 :=
  ⟨rfl, rfl⟩

/-- C5 amended: for a prefix that is not a string, or a returned
configuration whose `fetchURLFunc` is missing or not a function — with
`paramsFunc` itself callable — the operation does not throw: it writes
exactly one diagnostic log and returns `undefined` immediately. -/
theorem soft_validation_logs_and_returns
    (ap : JSVal) (pf : (JSVal → Action) → FetchParams) (key : JSVal)
    (net : JSVal → JSVal → Except JSVal JSResponse)
    (h : jsTypeof ap ≠ "string" ∨
      (paramsOf pf ap key).fetchURLFunc.typeof ≠ "function") :
    (runFetcher ap (.fn pf) key net).1 =
      [.logged (validationMessage ap (paramsOf pf ap key).fetchURLFunc)] ∧
    (runFetcher ap (.fn pf) key net).2 = .undefinedReturn := by
  rw [runFetcher_invalid_eq ap pf key net h]
  exact ⟨rfl, rfl⟩

/-- Witness for C5 amended: numeric prefix `3`, well-formed params. -/
theorem soft_validation_logs_and_returns_w :
    (runFetcher (.num 3) (.fn (fun _ => friendsParams)) (.str "k")
        (fun _ _ => .error (.str "e"))).1 =
      [.logged (validationMessage (.num 3) (.fn friendsURL))] ∧
    (runFetcher (.num 3) (.fn (fun _ => friendsParams)) (.str "k")
        (fun _ _ => .error (.str "e"))).2 = .undefinedReturn :=
  soft_validation_logs_and_returns (.num 3) (fun _ => friendsParams)
    (.str "k") (fun _ _ => .error (.str "e")) (Or.inl (by decide))

/-- Params fixture with no `fetchURLFunc` at all. -/
def noURLParams : FetchParams :=
  { fetchURLFunc := .missing }

/-- C6: when the configuration omits `fetchURLFunc` (or it is not a
function), or the prefix is not a string, no action of any kind is
dispatched and the network call is never issued. -/
theorem validation_failure_no_dispatch_no_fetch
    (ap : JSVal) (pf : (JSVal → Action) → FetchParams) (key : JSVal)
    (net : JSVal → JSVal → Except JSVal JSResponse)
    (h : jsTypeof ap ≠ "string" ∨
      (paramsOf pf ap key).fetchURLFunc.typeof ≠ "function") :
    (runFetcher ap (.fn pf) key net).1.countP Event.isDispatch = 0 ∧
    (runFetcher ap (.fn pf) key net).1.countP Event.isFetchCall = 0 := by
  rw [runFetcher_invalid_eq ap pf key net h]
  exact ⟨rfl, rfl⟩

/-- Witness for C6: string prefix but `fetchURLFunc` omitted. -/
theorem validation_failure_no_dispatch_no_fetch_w :
    (runFetcher (.str "FETCH_FRIENDS") (.fn (fun _ => noURLParams))
        (.str "alice") (fun _ _ => .error (.str "e"))).1.countP
      Event.isDispatch = 0 ∧
    (runFetcher (.str "FETCH_FRIENDS") (.fn (fun _ => noURLParams))
        (.str "alice") (fun _ _ => .error (.str "e"))).1.countP
      Event.isFetchCall = 0 :=
  validation_failure_no_dispatch_no_fetch (.str "FETCH_FRIENDS")
    (fun _ => noURLParams) (.str "alice") (fun _ _ => .error (.str "e"))
    (Or.inr (by decide))

/-- Every action dispatched by the promise-chain continuation carries the
invocation's key. -/
theorem fetchContinuation_key_eq (ap key : JSVal) (rt : String)
    (pr : JSVal → JSVal) (d : Option (JSVal → List Action))
    (res : Except JSVal JSResponse) :
    ∀ a ∈ dispatchedActions (fetchContinuation ap key rt pr d res).1,
      a.key = key := by
  unfold fetchContinuation decodeStep
  rcases res with e | r
  · simp [dispatchedActions, failureAction, Action.key]
  · cases h : r.bodyMethod rt with
    | none => simp [h, dispatchedActions]
    | some x =>
        cases x with
        | error e => simp [h, dispatchedActions, failureAction, Action.key]
        | ok v =>
            cases d with
            | none =>
                simp [h, dispatchedActions, dispatchSuccessAction,
                  successAction, Action.key]
            | some dd => simp [h, dispatchedActions]

/-- No `JSVal` is a function, so `typeof` of a data value is never
`"function"`. -/
theorem jsTypeof_ne_function (v : JSVal) : jsTypeof v ≠ "function" := by
  cases v <;> simp [jsTypeof]

/-- C8: every action dispatched during one invocation — request, failure,
or success — and every action the dispatch-success capability would
dispatch, carries the invocation's key unchanged. -/
theorem key_unchanged_across_notifications
    (ap : JSVal) (pp : ParamsFunc) (key : JSVal)
    (net : JSVal → JSVal → Except JSVal JSResponse) :
    (∀ a ∈ dispatchedActions (runFetcher ap pp key net).1, a.key = key) ∧
    ∀ r, (dispatchSuccessAction ap key r).key = key := by
  constructor
  · intro a ha
    cases pp with
    | notAFunction v => simp [runFetcher, dispatchedActions] at ha
    | fn pf =>
        by_cases hs : jsTypeof ap = "string"
        · cases hURL : (paramsOf pf ap key).fetchURLFunc with
          | fn f =>
              rw [runFetcher_fn_eq ap pf key net f hs hURL] at ha
              simp only [dispatchedActions, List.filterMap_cons] at ha
              rcases List.mem_cons.mp ha with h1 | ha
              · subst h1
                simp [requestAction, Action.key]
              · exact fetchContinuation_key_eq ap key _ _ _ _ a ha
          | missing =>
              rw [runFetcher_invalid_eq ap pf key net
                (Or.inr (by rw [hURL]; decide))] at ha
              simp [dispatchedActions] at ha
          | notAFunction v =>
              have hne : (paramsOf pf ap key).fetchURLFunc.typeof ≠
                  "function" := by
                rw [hURL]
                simp only [FuncProp.typeof]
                exact jsTypeof_ne_function v
              rw [runFetcher_invalid_eq ap pf key net (Or.inr hne)] at ha
              simp [dispatchedActions] at ha
        · rw [runFetcher_invalid_eq ap pf key net (Or.inl hs)] at ha
          simp [dispatchedActions] at ha
  · intro r
    rfl

/-- Witness for C8: on a concrete failing invocation, the dispatched
request action's key, and a capability-dispatched success action's key,
both equal the invocation key. -/
theorem key_unchanged_across_notifications_w :
    (Action.request ("FETCH_FRIENDS" ++ "_REQUEST") (.str "alice")).key =
      .str "alice" ∧
    (dispatchSuccessAction (.str "FETCH_FRIENDS") (.str "alice")
      (.str "r")).key = .str "alice" :=
  ⟨(key_unchanged_across_notifications (.str "FETCH_FRIENDS")
      (.fn (fun _ => friendsParams)) (.str "alice")
      (fun _ _ => .error (.str "e"))).1
      (Action.request ("FETCH_FRIENDS" ++ "_REQUEST") (.str "alice"))
      (by
        rw [runFetcher_fn_eq (.str "FETCH_FRIENDS") (fun _ => friendsParams)
          (.str "alice") (fun _ _ => .error (.str "e")) friendsURL rfl rfl]
        simp [dispatchedActions, fetchContinuation, requestAction,
          jsToString, failureAction]),
    (key_unchanged_across_notifications (.str "FETCH_FRIENDS")
      (.fn (fun _ => friendsParams)) (.str "alice")
      (fun _ _ => .error (.str "e"))).2 (.str "r")⟩

/-- The decode step always records the body-decode attempt for the
resolved `responseType`. -/
theorem decodeStep_mem_decodeCalled (ap key : JSVal) (rt : String)
    (pr : JSVal → JSVal) (d : Option (JSVal → List Action))
    (r : JSResponse) :
    Event.decodeCalled rt ∈ (decodeStep ap key rt pr d r).1 := by
  unfold decodeStep
  cases h : r.bodyMethod rt with
  | none => simp [h]
  | some x =>
      cases x with
      | error e => simp [h]
      | ok v =>
          cases d with
          | none => simp [h]
          | some dd => simp [h]

/-- C7: each destructuring default applies exactly when the corresponding
option is omitted: omitted `fetchOptionsFunc` sends the fetch out with
`{method: "GET"}` and no body, omitted `responseType` decodes with
`"json"`, omitted `parseResponse` puts the decoded body itself into the
success action; a supplied option is used as given. -/
theorem destructuring_defaults
    (s : String) (pf : (JSVal → Action) → FetchParams) (key : JSVal)
    (net : JSVal → JSVal → Except JSVal JSResponse) (f : JSVal → JSVal)
    (hURL : (paramsOf pf (.str s) key).fetchURLFunc = .fn f) :
    ((paramsOf pf (.str s) key).fetchOptionsFunc = none →
      Event.fetchCalled (f key) (.obj [("method", .str "GET")]) ∈
        (runFetcher (.str s) (.fn pf) key net).1) ∧
    (∀ g, (paramsOf pf (.str s) key).fetchOptionsFunc = some g →
      Event.fetchCalled (f key) (g key) ∈
        (runFetcher (.str s) (.fn pf) key net).1) ∧
    (∀ resp, net (f key) (resolvedOptions (paramsOf pf (.str s) key) key) =
        .ok resp →
      ((paramsOf pf (.str s) key).responseType = none →
        Event.decodeCalled "json" ∈
          (runFetcher (.str s) (.fn pf) key net).1) ∧
      (∀ rt, (paramsOf pf (.str s) key).responseType = some rt →
        Event.decodeCalled rt ∈ (runFetcher (.str s) (.fn pf) key net).1)) ∧
    (∀ resp v,
      net (f key) (resolvedOptions (paramsOf pf (.str s) key) key) =
        .ok resp →
      resp.bodyMethod (resolvedResponseType (paramsOf pf (.str s) key)) =
        some (.ok v) →
      (paramsOf pf (.str s) key).deferredSuccess = none →
      ((paramsOf pf (.str s) key).parseResponse = none →
        Action.success (s ++ "_SUCCESS") key v ∈
          dispatchedActions (runFetcher (.str s) (.fn pf) key net).1) ∧
      (∀ g, (paramsOf pf (.str s) key).parseResponse = some g →
        Action.success (s ++ "_SUCCESS") key (g v) ∈
          dispatchedActions (runFetcher (.str s) (.fn pf) key net).1)) := by
  rw [runFetcher_fn_eq (.str s) pf key net f rfl hURL]
  refine ⟨?_, ?_, ?_, ?_⟩
  · intro h
    simp [resolvedOptions, h, defaultFetchOptionsFunc]
  · intro g h
    simp [resolvedOptions, h]
  · intro resp hNet
    constructor
    · intro h
      have hrt : resolvedResponseType (paramsOf pf (.str s) key) = "json" := by
        simp [resolvedResponseType, h]
      simp [fetchContinuation, hNet, hrt, decodeStep_mem_decodeCalled]
    · intro rt hrt0
      have hrt : resolvedResponseType (paramsOf pf (.str s) key) = rt := by
        simp [resolvedResponseType, hrt0]
      simp [fetchContinuation, hNet, hrt, decodeStep_mem_decodeCalled]
  · intro resp v hNet hDec hDef
    constructor
    · intro hp
      have hpr : resolvedParse (paramsOf pf (.str s) key) = fun x => x := by
        simp [resolvedParse, hp]
      simp [fetchContinuation, decodeStep, hNet, hDec, hDef, hpr,
        dispatchedActions, dispatchSuccessAction, successAction, jsToString]
    · intro g hp
      have hpr : resolvedParse (paramsOf pf (.str s) key) = g := by
        simp [resolvedParse, hp]
      simp [fetchContinuation, decodeStep, hNet, hDec, hDef, hpr,
        dispatchedActions, dispatchSuccessAction, successAction, jsToString]

/-- Params fixture with every optional option supplied. -/
def customParams : FetchParams :=
  { fetchURLFunc := .fn (fun k => k),
    fetchOptionsFunc := some (fun _ => .obj [("method", .str "POST")]),
    responseType := some "text",
    parseResponse := some (fun _ => .str "parsed") }

/-- Witness for C7: the all-omitted configuration uses GET, `"json"` and
the identity transform; the all-supplied configuration uses the supplied
options function, `"text"`, and the supplied transform. -/
theorem destructuring_defaults_w :
    (Event.fetchCalled (friendsURL (.str "alice"))
        (.obj [("method", .str "GET")]) ∈
      (runFetcher (.str "FETCH_FRIENDS") (.fn (fun _ => friendsParams))
        (.str "alice") (fun _ _ => .ok friendsResp)).1) ∧
    (Event.decodeCalled "json" ∈
      (runFetcher (.str "FETCH_FRIENDS") (.fn (fun _ => friendsParams))
        (.str "alice") (fun _ _ => .ok friendsResp)).1) ∧
    (Action.success ("FETCH_FRIENDS" ++ "_SUCCESS") (.str "alice")
        (.arr [.str "bob", .str "carol"]) ∈
      dispatchedActions (runFetcher (.str "FETCH_FRIENDS")
        (.fn (fun _ => friendsParams)) (.str "alice")
        (fun _ _ => .ok friendsResp)).1) ∧
    (Event.fetchCalled (.str "alice") (.obj [("method", .str "POST")]) ∈
      (runFetcher (.str "F") (.fn (fun _ => customParams)) (.str "alice")
        (fun _ _ => .ok (respFix (.error (.str "d")) (.ok (.str "body"))))).1) ∧
    (Event.decodeCalled "text" ∈
      (runFetcher (.str "F") (.fn (fun _ => customParams)) (.str "alice")
        (fun _ _ => .ok (respFix (.error (.str "d")) (.ok (.str "body"))))).1) ∧
    (Action.success ("F" ++ "_SUCCESS") (.str "alice") (.str "parsed") ∈
      dispatchedActions (runFetcher (.str "F") (.fn (fun _ => customParams))
        (.str "alice")
        (fun _ _ => .ok (respFix (.error (.str "d")) (.ok (.str "body"))))).1) :=
  ⟨(destructuring_defaults "FETCH_FRIENDS" (fun _ => friendsParams)
      (.str "alice") (fun _ _ => .ok friendsResp) friendsURL rfl).1 rfl,
    ((destructuring_defaults "FETCH_FRIENDS" (fun _ => friendsParams)
      (.str "alice") (fun _ _ => .ok friendsResp) friendsURL rfl).2.2.1
      friendsResp rfl).1 rfl,
    ((destructuring_defaults "FETCH_FRIENDS" (fun _ => friendsParams)
      (.str "alice") (fun _ _ => .ok friendsResp) friendsURL rfl).2.2.2
      friendsResp (.arr [.str "bob", .str "carol"]) rfl rfl rfl).1 rfl,
    ((destructuring_defaults "F" (fun _ => customParams)
      (.str "alice")
      (fun _ _ => .ok (respFix (.error (.str "d")) (.ok (.str "body"))))
      (fun k => k) rfl).2.1 (fun _ => .obj [("method", .str "POST")]) rfl),
    (((destructuring_defaults "F" (fun _ => customParams)
      (.str "alice")
      (fun _ _ => .ok (respFix (.error (.str "d")) (.ok (.str "body"))))
      (fun k => k) rfl).2.2.1
      (respFix (.error (.str "d")) (.ok (.str "body"))) rfl).2 "text" rfl),
    (((destructuring_defaults "F" (fun _ => customParams)
      (.str "alice")
      (fun _ _ => .ok (respFix (.error (.str "d")) (.ok (.str "body"))))
      (fun k => k) rfl).2.2.2
      (respFix (.error (.str "d")) (.ok (.str "body"))) (.str "body")
      rfl rfl rfl).2 (fun _ => .str "parsed") rfl)⟩

/-- C9 counterexample: on validation failure the thunk executes `return;`
(src/index.js line 46), so the caller receives `undefined` — not a
Promise, pending or otherwise — refuting "returns a pending asynchronous
outcome (Promise<void>)" for every invocation. -/
theorem validation_returns_undefined_not_promise :
    (runFetcher (.num 3) (.fn (fun _ => friendsParams)) (.str "k")
        (fun _ _ => .error (.str "e"))).2 = .undefinedReturn := by
  rw [runFetcher_invalid_eq (.num 3) (fun _ => friendsParams) (.str "k")
    (fun _ _ => .error (.str "e")) (Or.inl (by decide))]

/-- C9 amended: when `paramsFunc` is callable, validation passes, and any
arriving response supports the resolved `responseType`, the operation
returns a promise that resolves (in this trace semantics the outcome is
settled only after the invocation's notifications are in the trace); on
validation failure it instead returns `undefined`, which is not a
Promise, though awaiting it behaves as an immediately settled outcome. -/
theorem promise_resolves_after_dispatch
    (s : String) (pf : (JSVal → Action) → FetchParams) (key : JSVal)
    (net : JSVal → JSVal → Except JSVal JSResponse) (f : JSVal → JSVal)
    (hURL : (paramsOf pf (.str s) key).fetchURLFunc = .fn f)
    (hDecodable : ∀ resp,
      net (f key) (resolvedOptions (paramsOf pf (.str s) key) key) =
        .ok resp →
      (resp.bodyMethod
        (resolvedResponseType (paramsOf pf (.str s) key))).isSome) :
    (runFetcher (.str s) (.fn pf) key net).2 = .resolved ∧
    ∀ ap, jsTypeof ap ≠ "string" →
      (runFetcher ap (.fn pf) key net).2 = .undefinedReturn := by
  constructor
  · rw [runFetcher_fn_eq (.str s) pf key net f rfl hURL]
    cases hNet : net (f key) (resolvedOptions (paramsOf pf (.str s) key) key)
      with
    | error e => simp [fetchContinuation, hNet]
    | ok resp =>
        have hsome := hDecodable resp hNet
        simp only [fetchContinuation, hNet]
        unfold decodeStep
        cases hbm : resp.bodyMethod
          (resolvedResponseType (paramsOf pf (.str s) key)) with
        | none => rw [hbm] at hsome; simp at hsome
        | some x =>
            cases x with
            | error e => simp [hbm]
            | ok v =>
                cases hd : (paramsOf pf (.str s) key).deferredSuccess with
                | none => simp [hbm, hd]
                | some dd => simp [hbm, hd]
  · intro ap hap
    rw [runFetcher_invalid_eq ap pf key net (Or.inl hap)]

/-- Witness for C9 amended: a concrete resolving invocation and a concrete
numeric prefix for the undefined-return case. -/
theorem promise_resolves_after_dispatch_w :
    (runFetcher (.str "FETCH_FRIENDS") (.fn (fun _ => friendsParams))
        (.str "alice") (fun _ _ => .ok friendsResp)).2 =
      FetchOutcome.resolved ∧
    (runFetcher (.num 7) (.fn (fun _ => friendsParams)) (.str "alice")
        (fun _ _ => .ok friendsResp)).2 = FetchOutcome.undefinedReturn :=
  ⟨(promise_resolves_after_dispatch "FETCH_FRIENDS" (fun _ => friendsParams)
      (.str "alice") (fun _ _ => .ok friendsResp) friendsURL rfl
      (fun resp h => by
        cases h
        rfl)).1,
    (promise_resolves_after_dispatch "FETCH_FRIENDS" (fun _ => friendsParams)
      (.str "alice") (fun _ _ => .ok friendsResp) friendsURL rfl
      (fun resp h => by
        cases h
        rfl)).2 (.num 7) (by decide)⟩

/-- An unrecognized `responseType` names no body method on the response. -/
theorem bodyMethod_none_of_unrecognized (r : JSResponse) (rt : String)
    (h1 : rt ≠ "arrayBuffer") (h2 : rt ≠ "blob") (h3 : rt ≠ "formData")
    (h4 : rt ≠ "json") (h5 : rt ≠ "text") :
    r.bodyMethod rt = none := by
  simp [JSResponse.bodyMethod, h1, h2, h3, h4, h5]

/-- C10: an unrecognized `responseType` passes validation — the request
action is dispatched and the fetch issued — and once the response
arrives, `response[responseType]` is `undefined`, so the call throws
inside the fulfillment handler: the promise returned by the operation
rejects, and neither a failure action nor a success action is
dispatched. -/
theorem unrecognized_responseType_rejects
    (s : String) (pf : (JSVal → Action) → FetchParams) (key : JSVal)
    (net : JSVal → JSVal → Except JSVal JSResponse) (f : JSVal → JSVal)
    (resp : JSResponse) (rt : String)
    (hURL : (paramsOf pf (.str s) key).fetchURLFunc = .fn f)
    (hrt : (paramsOf pf (.str s) key).responseType = some rt)
    (h1 : rt ≠ "arrayBuffer") (h2 : rt ≠ "blob") (h3 : rt ≠ "formData")
    (h4 : rt ≠ "json") (h5 : rt ≠ "text")
    (hNet : net (f key) (resolvedOptions (paramsOf pf (.str s) key) key) =
      .ok resp) :
    (runFetcher (.str s) (.fn pf) key net).1.countP
      Event.isRequestDispatch = 1 ∧
    (runFetcher (.str s) (.fn pf) key net).1.countP Event.isFetchCall = 1 ∧
    (runFetcher (.str s) (.fn pf) key net).2 =
      .rejected (.str "TypeError: response[responseType] is not a function") ∧
    (runFetcher (.str s) (.fn pf) key net).1.countP
      Event.isFailureDispatch = 0 ∧
    (runFetcher (.str s) (.fn pf) key net).1.countP
      Event.isSuccessDispatch = 0 := by
  have hrtv : resolvedResponseType (paramsOf pf (.str s) key) = rt := by
    simp [resolvedResponseType, hrt]
  have hbm : resp.bodyMethod
      (resolvedResponseType (paramsOf pf (.str s) key)) = none := by
    rw [hrtv]
    exact bodyMethod_none_of_unrecognized resp rt h1 h2 h3 h4 h5
  rw [runFetcher_fn_eq (.str s) pf key net f rfl hURL]
  simp [fetchContinuation, decodeStep, hNet, hbm, List.countP_cons,
    Event.isRequestDispatch, Event.isFetchCall, Event.isFailureDispatch,
    Event.isSuccessDispatch, requestAction, jsToString]

/-- Params fixture with `responseType: "xml"`, outside the recognized
five. -/
def xmlParams : FetchParams :=
  { fetchURLFunc := .fn (fun k => k), responseType := some "xml" }

/-- Witness for C10: `responseType: "xml"` on a fulfilled fetch. -/
theorem unrecognized_responseType_rejects_w :
    (runFetcher (.str "F") (.fn (fun _ => xmlParams)) (.str "alice")
        (fun _ _ => .ok friendsResp)).1.countP
      Event.isRequestDispatch = 1 ∧
    (runFetcher (.str "F") (.fn (fun _ => xmlParams)) (.str "alice")
        (fun _ _ => .ok friendsResp)).1.countP Event.isFetchCall = 1 ∧
    (runFetcher (.str "F") (.fn (fun _ => xmlParams)) (.str "alice")
        (fun _ _ => .ok friendsResp)).2 =
      .rejected (.str "TypeError: response[responseType] is not a function") ∧
    (runFetcher (.str "F") (.fn (fun _ => xmlParams)) (.str "alice")
        (fun _ _ => .ok friendsResp)).1.countP
      Event.isFailureDispatch = 0 ∧
    (runFetcher (.str "F") (.fn (fun _ => xmlParams)) (.str "alice")
        (fun _ _ => .ok friendsResp)).1.countP
      Event.isSuccessDispatch = 0 :=
  unrecognized_responseType_rejects "F" (fun _ => xmlParams) (.str "alice")
    (fun _ _ => .ok friendsResp) (fun k => k) friendsResp "xml" rfl rfl
    (by decide) (by decide) (by decide) (by decide) (by decide) rfl

end RCF
